import Mathlib

/-!
Verification of the Job-Finder relevance-ranking subsystem.

Shallow embedding of the relevance-filtering code of the Job-Finder
repository:

* `app/models/job.py` — the `Job` and `JobRequest` pydantic models;
* `app/services/search_service.py` — `standardize_job_nature` (the posting
  normalizer);
* `app/services/ai_relevance_filtering.py` — the rule-based scorer
  (`_calculate_rule_based_score`, `_extract_years_from_experience`), the
  LLM score parsing and mismatch safety net (`_score_single_job`), the
  batch scorer (`_score_jobs_with_ai_batch`), the orchestrator
  (`filter_jobs_by_relevance`, `_strict_filter_by_job_nature`,
  `_prioritize_jobs_by_nature`, `_score_jobs_with_rules`);
* `app/services/simple_relevance_filtering.py` — the TF-IDF based
  `SimpleRelevanceFilteringService.filter_jobs_by_relevance` (its filtering
  loop; the TF-IDF cosine scores themselves come from scikit-learn, an
  external collaborator, and are passed in as a parallel list);
* `app/core/config.py` — the default `MIN_RELEVANCE_SCORE`.

Python floats are modelled as rationals (`ℚ`); all score constants in the
source are short decimals.  Python truthiness on optional strings
(`if x and y:`) is modelled as `some`-ness plus non-emptiness; truthiness
on optional ints as `some`-ness plus non-zeroness.  Python's `sort` and
`sorted` are stable; they are modelled with `List.insertionSort` applied to
the non-strict key order, which is likewise stable.
-/

/-- Model `JobRequest` (app/models/job.py lines 5-14): the structured search
criteria.  `position` is required; all other fields are optional. -/
structure JobRequest where
  position : String
  experience : Option String
  salary : Option String
  jobNature : Option String
  location : Option String
  skills : Option String
deriving DecidableEq, Repr

/-- Model `Job` (app/models/job.py lines 17-32): one scraped posting.
`relevance_score` and `relevance_percentage` default to `None` in the
pydantic model and are filled in only by the scoring subsystem. -/
structure Job where
  job_title : String
  company : String
  experience : Option String
  jobNature : Option String
  location : Option String
  salary : Option String
  apply_link : String
  description : Option String
  source : String
  relevance_score : Option ℚ
  relevance_percentage : Option String
deriving DecidableEq, Repr

/-- A `Job` as produced by a collector: the pydantic defaults leave both
relevance fields `None` (no sentinel value). -/
def collectedJob (title company : String) (experience jobNature location salary : Option String)
    (applyLink : String) (description : Option String) (source : String) : Job :=
  { job_title := title, company := company, experience := experience, jobNature := jobNature,
    location := location, salary := salary, apply_link := applyLink,
    description := description, source := source,
    relevance_score := none, relevance_percentage := none }

/-- Python's `str.lower()` (ASCII case folding suffices for the embedded
keyword sets and arrangement values). -/
def lowerStr (s : String) : String :=
  String.mk (s.toList.map Char.toLower)

/-- Whether `needle` occurs as a contiguous run inside `hay` (character lists). -/
def charsContain (needle : List Char) : List Char → Bool
  | [] => needle.isEmpty
  | c :: t => needle.isPrefixOf (c :: t) || charsContain needle t

/-- Python's substring test `needle in hay` on strings. -/
def containsSub (hay needle : String) : Bool :=
  charsContain needle.toList hay.toList

/-- Python's `str.split()` with no argument: split on whitespace runs,
dropping empty pieces. -/
def pySplitWords (s : String) : List String :=
  (s.split Char.isWhitespace).filter (fun w => !w.isEmpty)

/-! Section: Posting normalizer — `SearchService.standardize_job_nature`
(app/services/search_service.py lines 114-153) -/

def remoteKeywords : List String := ["remote", "work from home", "wfh", "virtual"]

def hybridKeywords : List String := ["hybrid", "flexible", "part remote"]

def onsiteKeywords : List String := ["onsite", "on-site", "in office", "on location", "in-person"]

/-- Python's `any(keyword in text for keyword in keywords)`. -/
def hasAnyKeyword (text : String) (keywords : List String) : Bool :=
  keywords.any (fun k => containsSub text k)

/-- The nine-way keyword cascade of `standardize_job_nature` on the three
lower-cased texts: title first, then the existing `jobNature` field, then
the description; within each text remote, then hybrid, then onsite. -/
def natureFromTexts (titleLower natureLower descLower : String) : String :=
  if hasAnyKeyword titleLower remoteKeywords then "Remote"
  else if hasAnyKeyword titleLower hybridKeywords then "Hybrid"
  else if hasAnyKeyword titleLower onsiteKeywords then "Onsite"
  else if hasAnyKeyword natureLower remoteKeywords then "Remote"
  else if hasAnyKeyword natureLower hybridKeywords then "Hybrid"
  else if hasAnyKeyword natureLower onsiteKeywords then "Onsite"
  else if hasAnyKeyword descLower remoteKeywords then "Remote"
  else if hasAnyKeyword descLower hybridKeywords then "Hybrid"
  else if hasAnyKeyword descLower onsiteKeywords then "Onsite"
  else "Not specified"

/-- Function `standardize_job_nature` (lines 114-153): sets `jobNature` from the
cascade; `job.jobNature.lower() if job.jobNature else ""` is `getD ""`
followed by lowering (the empty string lowers to itself), likewise for the
optional description.  (The `hasattr` guard never fires for pydantic `Job`
objects, which always carry the attribute.) -/
def standardize_job_nature (j : Job) : Job :=
  { j with jobNature := some (natureFromTexts (lowerStr j.job_title)
      (lowerStr (j.jobNature.getD "")) (lowerStr (j.description.getD ""))) }

/-- One keyword-set check of the spec (§4.1): remote, then hybrid, then
onsite on a single lower-cased text. -/
def classifyText (t : String) : Option String :=
  if hasAnyKeyword t remoteKeywords then some "Remote"
  else if hasAnyKeyword t hybridKeywords then some "Hybrid"
  else if hasAnyKeyword t onsiteKeywords then some "Onsite"
  else none

/-- Modelled from the spec's words (§4.1), for refinement comparison with
`standardize_job_nature`: apply the three keyword-set checks first to the
title, then to the existing `workArrangement` field, then to the
description, first match winning, default `"Not specified"`. -/
def standardize_spec (j : Job) : Job :=
  let result :=
    match classifyText (lowerStr j.job_title) with
    | some r => r
    | none =>
      match classifyText (lowerStr (j.jobNature.getD "")) with
      | some r => r
      | none =>
        match classifyText (lowerStr (j.description.getD "")) with
        | some r => r
        | none => "Not specified"
  { j with jobNature := some result }

/-! Section: the function `_extract_years_from_experience`
(app/services/ai_relevance_filtering.py lines 469-478)

`re.findall(r'\b(\d+)(?:\+)?\s*(?:year|yr)s?\b', experience.lower())`, first
match, as an integer.  Because a shorter digit run is always followed by a
digit (which can start neither `\+`, `\s`, nor `year`/`yr`), the greedy
`\d+` never backtracks usefully, and the optional `+`, once present, must be
consumed; so the regex is equivalent to the deterministic scanner below. -/

/-- Python's `\w` on ASCII text: letters, digits, underscore. -/
def isWordChar (c : Char) : Bool :=
  c.isAlphanum || c = '_'

/-- Digit list to the integer it denotes. -/
def natOfDigits (ds : List Char) : Nat :=
  ds.foldl (fun n c => 10 * n + (c.toNat - '0'.toNat)) 0

/-- Matches `(?:year|yr)s?\b`: one of the four unit spellings as a prefix, followed
by a word boundary. -/
def yearUnitWithBoundary (cs : List Char) : Bool :=
  ["years", "year", "yrs", "yr"].any (fun unit =>
    unit.toList.isPrefixOf cs &&
      (match cs.drop unit.length with
       | [] => true
       | c :: _ => !isWordChar c))

/-- Try the match starting at a digit with a word boundary before it:
maximal digit run, optional `+`, whitespace, then a year unit with a
trailing word boundary.  Returns the digits' value on success. -/
def matchYearsAt (cs : List Char) : Option Nat :=
  let digits := cs.takeWhile Char.isDigit
  let rest1 := cs.dropWhile Char.isDigit
  if digits.isEmpty then none
  else
    let rest2 := match rest1 with
      | '+' :: r => r
      | r => r
    let rest3 := rest2.dropWhile Char.isWhitespace
    if yearUnitWithBoundary rest3 then some (natOfDigits digits) else none

/-- Left-to-right scan for the first regex match; `prevIsWord` carries the
word-boundary state (`false` at the start of the string). -/
def scanYears (prevIsWord : Bool) : List Char → Option Nat
  | [] => none
  | c :: cs =>
    if !prevIsWord && c.isDigit then
      match matchYearsAt (c :: cs) with
      | some n => some n
      | none => scanYears (isWordChar c) cs
    else scanYears (isWordChar c) cs

/-- Function `_extract_years_from_experience` (lines 469-478): first
`\b(\d+)(?:\+)?\s*(?:year|yr)s?\b` match in the lower-cased string, or
`none`.  (The surrounding `try/except` is unreachable: `int` on a digit
string cannot fail.) -/
def extract_years_from_experience (experience : String) : Option Nat :=
  scanYears false (lowerStr experience).toList

/-! Section: Rule-based scorer — `_calculate_rule_based_score`
(app/services/ai_relevance_filtering.py lines 409-467)

The sequential score updates of the Python function are decomposed into one
definition per code block; `calculate_rule_based_score` chains them in
source order. -/

/-- Python's `job_request.jobNature and job.jobNature and job_request.jobNature.lower()
!= job.jobNature.lower()` (lines 463 and 415-419): both arrangements truthy
(present and non-empty) and different case-insensitively. -/
def natureMismatch (req : JobRequest) (job : Job) : Bool :=
  match req.jobNature, job.jobNature with
  | some rn, some jn =>
    if rn ≠ "" ∧ jn ≠ "" ∧ lowerStr rn ≠ lowerStr jn then true else false
  | _, _ => false

/-- Lines 415-421: work-arrangement step applied to the running score.
Match adds `0.4`; mismatch subtracts `0.2` and takes `min` with `0.3`. -/
def natureStep (req : JobRequest) (job : Job) (score : ℚ) : ℚ :=
  match req.jobNature, job.jobNature with
  | some rn, some jn =>
    if rn ≠ "" ∧ jn ≠ "" then
      if lowerStr rn = lowerStr jn then score + 4/10
      else min (score - 2/10) (3/10)
    else score
  | _, _ => score

/-- Lines 423-432: `+0.3` for the position as a substring of the title,
else `+0.15` when any whitespace-separated word of the position occurs in
the title. -/
def titleBonus (req : JobRequest) (job : Job) : ℚ :=
  let positionLower := lowerStr req.position
  let titleLower := lowerStr job.job_title
  if containsSub titleLower positionLower then 3/10
  else if (pySplitWords positionLower).any (fun w => containsSub titleLower w) then 15/100
  else 0

/-- Lines 434-441: `0.2 * matched/total` over the comma-separated skills,
each stripped and lower-cased, matched as substrings of the lower-cased
description.  (`split(',')` never yields an empty list, so the inner
`if skills:` guard always holds; it is kept for fidelity.) -/
def skillsBonus (req : JobRequest) (job : Job) : ℚ :=
  match req.skills, job.description with
  | some sk, some desc =>
    if sk ≠ "" ∧ desc ≠ "" then
      let skills := (sk.splitOn ",").map (fun s => lowerStr s.trim)
      let descriptionLower := lowerStr desc
      let matched := (skills.filter (fun s => containsSub descriptionLower s)).length
      if skills ≠ [] then (2/10) * ((matched : ℚ) / (skills.length : ℚ)) else 0
    else 0
  | _, _ => 0

/-- Lines 443-449: `+0.1` when any comma-separated, trimmed part of the
requested location occurs in the lower-cased posting location. -/
def locationBonus (req : JobRequest) (job : Job) : ℚ :=
  match req.location, job.location with
  | some rl, some jl =>
    if rl ≠ "" ∧ jl ≠ "" then
      let locationParts := (lowerStr rl).splitOn ","
      let jobLocationLower := lowerStr jl
      if locationParts.any (fun p => containsSub jobLocationLower p.trim) then 1/10 else 0
    else 0
  | _, _ => 0

/-- Lines 451-460: `+0.1` when both experience strings are truthy, both
parse to years, both parsed values are truthy (Python `if user_years and
job_years:` is false for `0`), and the posting's years are at most the
criteria's. -/
def experienceBonus (req : JobRequest) (job : Job) : ℚ :=
  match req.experience, job.experience with
  | some userExp, some jobExp =>
    if userExp ≠ "" ∧ jobExp ≠ "" then
      match extract_years_from_experience userExp, extract_years_from_experience jobExp with
      | some userYears, some jobYears =>
        if userYears ≠ 0 ∧ jobYears ≠ 0 then
          if jobYears ≤ userYears then 1/10 else 0
        else 0
      | _, _ => 0
    else 0
  | _, _ => 0

/-- Lines 462-464: the final hard cap at `0.3` for a work-arrangement
mismatch. -/
def natureCap (req : JobRequest) (job : Job) (score : ℚ) : ℚ :=
  if natureMismatch req job then min score (3/10) else score

/-- Function `_calculate_rule_based_score` (lines 409-467): base `0.3`, the five
blocks in source order, the mismatch cap, then the clamp to `[0,1]`
(`min(1.0, max(0.0, score))`). -/
def calculate_rule_based_score (job : Job) (req : JobRequest) : ℚ :=
  min 1 (max 0 (natureCap req job
    (natureStep req job (3/10) + titleBonus req job + skillsBonus req job +
      locationBonus req job + experienceBonus req job)))

/-! Section: Annotation and ordering helpers -/

/-- Lines 394-398 of `_score_jobs_with_rules`: annotate a job with a
rule-based score in `[0,1]` and the display string `f"{int(score*100)}%"`
(the score is non-negative there, so `int` truncation is `floor`). -/
def setRuleScore (j : Job) (score : ℚ) : Job :=
  { j with relevance_score := some score,
           relevance_percentage := some (toString (score * 100).floor ++ "%") }

/-- Lines 257-258 and 270-271 of `_score_jobs_with_ai_batch`: annotate a job
from a 0-100 scale score: `relevance_score = score / 100.0`,
`relevance_percentage = f"{int(score)}%"`. -/
def recordAIScore (j : Job) (score100 : ℚ) : Job :=
  { j with relevance_score := some (score100 / 100),
           relevance_percentage := some (toString score100.floor ++ "%") }

/-- The sort key `x.relevance_score` (with `getattr(x, 'relevance_score', 0)`
in the simple service); every job reaching a sort has its score set, so the
default only fixes the type. -/
def jobScore (j : Job) : ℚ :=
  j.relevance_score.getD 0

/-- Python's `j.jobNature and j.jobNature.lower() == requested.lower()` (lines
209-212 and 227-228): truthy arrangement equal to the requested one
case-insensitively. -/
def natureMatches (j : Job) (requested : String) : Bool :=
  match j.jobNature with
  | some jn => if jn ≠ "" ∧ lowerStr jn = lowerStr requested then true else false
  | none => false

/-- The first component of the sort key of `_prioritize_jobs_by_nature`:
`0` for a matching arrangement, `1` otherwise. -/
def natureFlag (j : Job) (requested : String) : ℕ :=
  if natureMatches j requested then 0 else 1

/-- The key order of `sort(key=lambda x: x.relevance_score, reverse=True)`:
descending scores.  Non-strict, so stable insertion sort reproduces
Python's stable sort. -/
def scoreDescOrder (a b : Job) : Prop :=
  jobScore b ≤ jobScore a

instance : DecidableRel scoreDescOrder := fun a b => by
  unfold scoreDescOrder; infer_instance

instance : IsTotal Job scoreDescOrder :=
  ⟨fun a b => le_total (jobScore b) (jobScore a)⟩

instance : IsTrans Job scoreDescOrder :=
  ⟨fun _ _ _ h1 h2 => le_trans h2 h1⟩

/-- Python's `sort(key=lambda x: x.relevance_score, reverse=True)` as a stable sort. -/
def sortByScoreDesc (l : List Job) : List Job :=
  List.insertionSort scoreDescOrder l

/-- The lexicographic key order of `_prioritize_jobs_by_nature` (lines
227-230): `sorted(key=lambda j: (0 if match else 1, -j.relevance_score))`. -/
def priorityOrder (requested : String) (a b : Job) : Prop :=
  natureFlag a requested < natureFlag b requested ∨
    (natureFlag a requested = natureFlag b requested ∧ jobScore b ≤ jobScore a)

instance (requested : String) : DecidableRel (priorityOrder requested) := fun a b => by
  unfold priorityOrder; infer_instance

instance (requested : String) : IsTotal Job (priorityOrder requested) := by
  refine ⟨fun a b => ?_⟩
  rcases lt_trichotomy (natureFlag a requested) (natureFlag b requested) with h | h | h
  · exact Or.inl (Or.inl h)
  · rcases le_total (jobScore b) (jobScore a) with hs | hs
    · exact Or.inl (Or.inr ⟨h, hs⟩)
    · exact Or.inr (Or.inr ⟨h.symm, hs⟩)
  · exact Or.inr (Or.inl h)

instance (requested : String) : IsTrans Job (priorityOrder requested) := by
  refine ⟨fun a b c hab hbc => ?_⟩
  rcases hab with hab | ⟨hab, sab⟩
  · rcases hbc with hbc | ⟨hbc, _⟩
    · exact Or.inl (hab.trans hbc)
    · exact Or.inl (hbc ▸ hab)
  · rcases hbc with hbc | ⟨hbc, sbc⟩
    · exact Or.inl (hab ▸ hbc)
    · exact Or.inr ⟨hab.trans hbc, sbc.trans sab⟩

/-- Function `_prioritize_jobs_by_nature` (lines 221-230): identity when the
requested arrangement is falsy or the list is empty, else the stable
two-level sort (match flag first, score descending second). -/
def prioritize_jobs_by_nature (jobs : List Job) (requestedNature : Option String) : List Job :=
  match requestedNature with
  | none => jobs
  | some n =>
    if n = "" ∨ jobs = [] then jobs
    else List.insertionSort (priorityOrder n) jobs

/-- Function `_strict_filter_by_job_nature` (lines 203-219): all jobs when the
requested arrangement is falsy, else exactly the jobs whose truthy
arrangement equals it case-insensitively. -/
def strict_filter_by_job_nature (jobs : List Job) (requestedNature : Option String) : List Job :=
  match requestedNature with
  | none => jobs
  | some n =>
    if n = "" then jobs
    else jobs.filter (fun j => natureMatches j n)

/-- Function `_score_jobs_with_rules` (lines 385-407): score every job, keep those
meeting the threshold, sort by score descending, then prioritize by
arrangement.  (The Python loop also mutates jobs that fall below the
threshold; only the returned list is modelled.) -/
def score_jobs_with_rules (jobs : List Job) (req : JobRequest) (threshold : ℚ) : List Job :=
  let scoredJobs := jobs.filterMap (fun j =>
    let score := calculate_rule_based_score j req
    if threshold ≤ score then some (setRuleScore j score) else none)
  prioritize_jobs_by_nature (sortByScoreDesc scoredJobs) req.jobNature

/-- Function `_score_jobs_with_ai_batch` (lines 232-297), with the LLM abstracted as
a deterministic oracle giving each job its 0-100 scale `score_data` value
(the result of `_score_single_job`, or the cached copy — the cache is
transparent for a deterministic oracle).  Batching in groups of three only
bounds concurrency; jobs are appended in list order regardless, then sorted
by score descending.  Per-job exceptions are absorbed inside the oracle
(the code substitutes the rule-based score for that job). -/
def score_jobs_with_ai_batch (oracle : Job → ℚ) (jobs : List Job) (threshold : ℚ) : List Job :=
  let allScoredJobs := jobs.filterMap (fun j =>
    if threshold ≤ oracle j / 100 then some (recordAIScore j (oracle j)) else none)
  sortByScoreDesc allScoredJobs

/-- Method `AIRelevanceFilteringService.filter_jobs_by_relevance` (lines 164-201).
`usingAI` is `self.using_ai`; a whole-batch exception on the AI path takes
the same `_score_jobs_with_rules(jobs, ...)` branch as `usingAI = false`
(modelled by that flag, since the pure oracle cannot raise). -/
def filter_jobs_by_relevance (usingAI : Bool) (oracle : Job → ℚ) (jobs : List Job)
    (req : JobRequest) (threshold : ℚ) : List Job :=
  if jobs = [] then []
  else
    let natureMatchingJobs := strict_filter_by_job_nature jobs req.jobNature
    let nonMatchingJobs := jobs.filter (fun j => !(decide (j ∈ natureMatchingJobs)))
    if usingAI then
      let scoredMatchingJobs := score_jobs_with_ai_batch oracle natureMatchingJobs threshold
      if 5 ≤ scoredMatchingJobs.length then scoredMatchingJobs
      else if nonMatchingJobs ≠ [] then
        let scoredNonMatching := score_jobs_with_ai_batch oracle nonMatchingJobs threshold
        let combinedJobs := sortByScoreDesc (scoredMatchingJobs ++ scoredNonMatching)
        prioritize_jobs_by_nature combinedJobs req.jobNature
      else scoredMatchingJobs
    else score_jobs_with_rules jobs req threshold

/-- Method `SimpleRelevanceFilteringService.filter_jobs_by_relevance`
(app/services/simple_relevance_filtering.py lines 24-62).  The TF-IDF
cosine scores are computed by scikit-learn (external collaborator) and
enter as the list `relevanceScores`, one per job.  The loop keeps any job
with score `>= 0.01` — the `threshold` parameter is not consulted (the
source comment reads "Temporarily lower threshold for testing"). -/
def simple_filter_jobs_by_relevance (jobs : List Job) (relevanceScores : List ℚ)
    (threshold : ℚ) : List Job :=
  if jobs = [] then []
  else
    let relevantJobs := (jobs.zip relevanceScores).filterMap (fun p =>
      if 1/100 ≤ p.2 then some { p.1 with relevance_score := some p.2 } else none)
    sortByScoreDesc relevantJobs

/-! Section: LLM score parsing and the mismatch safety net — `_score_single_job`
(app/services/ai_relevance_filtering.py lines 299-383) -/

/-- Matches `\s*(\d+)` after a found `SCORE:`: skip whitespace, then a maximal
non-empty digit run. -/
def parseScoreAfter (cs : List Char) : Option Nat :=
  let rest := cs.dropWhile Char.isWhitespace
  let digits := rest.takeWhile Char.isDigit
  if digits.isEmpty then none else some (natOfDigits digits)

/-- Left-to-right scan of `re.search(r'SCORE:\s*(\d+)', content)`: at each
occurrence of the literal `SCORE:`, try to read a score, else keep
scanning. -/
def scanScore : List Char → Option Nat
  | [] => none
  | c :: cs =>
    if c = 'S' ∧ "CORE:".toList.isPrefixOf cs then
      match parseScoreAfter (cs.drop 5) with
      | some n => some n
      | none => scanScore cs
    else scanScore cs

/-- The primary pattern `SCORE:\s*(\d+)` of `_score_single_job` (line 327),
case-sensitive, first match. -/
def parse_primary_score (content : String) : Option Nat :=
  scanScore content.toList

/-- Lines 334-338 (and 357-361): the work-arrangement mismatch safety net.
When both arrangements are truthy, differ case-insensitively, and the score
exceeds 30, force `score = min(30, score * 0.3)` and append the fixed
suffix to the explanation. -/
def applyNatureMismatchPenalty (req : JobRequest) (job : Job) (score : ℚ)
    (explanation : String) : ℚ × String :=
  if natureMismatch req job ∧ 30 < score then
    (min 30 (score * (3/10)), explanation ++ " (Score reduced for job nature mismatch)")
  else (score, explanation)

/-- The `score_data` produced by `_score_single_job` when the primary
`SCORE:` pattern matches (lines 330-343): the parsed number with the
mismatch safety net applied.  `explanation` stands for the text parsed by
the `EXPLANATION:` pattern (or its default), which the claims do not
constrain beyond the appended suffix. -/
def score_single_job_primary (req : JobRequest) (job : Job) (content : String)
    (explanation : String) : Option (ℚ × String) :=
  (parse_primary_score content).map
    (fun (n : Nat) => applyNatureMismatchPenalty req job (n : ℚ) explanation)

/-- Default `Settings.MIN_RELEVANCE_SCORE` (app/core/config.py line 29):
`float(os.getenv("MIN_RELEVANCE_SCORE", "0.2"))` with the variable unset. -/
def MIN_RELEVANCE_SCORE : ℚ := 2/10

/-! Section: Concrete inputs used by witnesses and counterexamples -/

/-- Criteria requesting a remote arrangement. -/
def reqRemote : JobRequest :=
  { position := "engineer", experience := none, salary := none,
    jobNature := some "remote", location := none, skills := none }

/-- Criteria with no arrangement requested. -/
def reqPlain : JobRequest :=
  { position := "engineer", experience := none, salary := none,
    jobNature := none, location := none, skills := none }

/-- An onsite posting whose title matches `reqRemote.position`. -/
def jobOnsite : Job :=
  collectedJob "engineer" "c" none (some "onsite") none none "l" none "s"

/-- A posting with no arrangement, title matching `reqPlain.position`. -/
def jobPlain : Job :=
  collectedJob "engineer" "c" none none none none "l" none "s"

/-- Title carrying a remote keyword while the explicit field says onsite. -/
def jobTitledRemote : Job :=
  collectedJob "Remote Backend Engineer" "Acme" none (some "Onsite") none none "l" none "linkedin"

/-- Criteria with five years of experience. -/
def reqFiveYears : JobRequest :=
  { position := "x", experience := some "5 years", salary := none,
    jobNature := none, location := none, skills := none }

/-- Posting requiring zero years (`"0 years"` parses to `0`, which is falsy
in Python). -/
def jobZeroYears : Job :=
  collectedJob "x" "c" (some "0 years") none none none "l" none "s"

/-- Criteria with three years of experience. -/
def reqThreeYears : JobRequest :=
  { position := "x", experience := some "3 years", salary := none,
    jobNature := none, location := none, skills := none }

/-- Posting requiring two years. -/
def jobTwoYears : Job :=
  collectedJob "x" "c" (some "2 years") none none none "l" none "s"

/-- Criteria requesting remote, position `"x"`. -/
def reqXRemote : JobRequest :=
  { position := "x", experience := none, salary := none,
    jobNature := some "remote", location := none, skills := none }

/-- Five remote postings whose titles contain the position `"x"`. -/
def fiveRemoteJobs : List Job :=
  [collectedJob "x" "c" none (some "remote") none none "l" none "s",
   collectedJob "x2" "c" none (some "remote") none none "l" none "s",
   collectedJob "x3" "c" none (some "remote") none none "l" none "s",
   collectedJob "x4" "c" none (some "remote") none none "l" none "s",
   collectedJob "x5" "c" none (some "remote") none none "l" none "s"]

/-- An onsite posting whose title contains the position `"x"`; its
rule-based score against `reqXRemote` is the capped `0.3`. -/
def jobXOnsite : Job :=
  collectedJob "x" "c" none (some "onsite") none none "l" none "s"

/-- Five matching postings plus one non-matching one. -/
def sixJobs : List Job := fiveRemoteJobs ++ [jobXOnsite]

/-- Two already-scored postings: a non-matching one with the higher score
first, a matching one with the lower score second. -/
def twoScoredJobs : List Job :=
  [{ jobOnsite with relevance_score := some (9/10) },
   { collectedJob "b" "c" none (some "remote") none none "l" none "s" with
       relevance_score := some (1/2) }]

/-- A posting entering the simple TF-IDF service. -/
def jobSimple : Job :=
  collectedJob "a" "c" none (some "remote") none none "l" none "s"

/-! Section: Lemmas about the normalizer -/

lemma natureFromTexts_eq_specChain (t n d : String) :
    natureFromTexts t n d =
      (match classifyText t with
       | some r => r
       | none =>
         match classifyText n with
         | some r => r
         | none =>
           match classifyText d with
           | some r => r
           | none => "Not specified") := by
  unfold natureFromTexts classifyText
  split_ifs <;> rfl

lemma natureFromTexts_idem (t n d : String) :
    natureFromTexts t (lowerStr (natureFromTexts t n d)) d = natureFromTexts t n d := by
  by_cases h1 : hasAnyKeyword t remoteKeywords = true
  · simp [natureFromTexts, h1]
  · by_cases h2 : hasAnyKeyword t hybridKeywords = true
    · simp [natureFromTexts, h1, h2]
    · by_cases h3 : hasAnyKeyword t onsiteKeywords = true
      · simp [natureFromTexts, h1, h2, h3]
      · by_cases h4 : hasAnyKeyword n remoteKeywords = true
        · have e : lowerStr "Remote" = "remote" := by decide
          have hr : hasAnyKeyword "remote" remoteKeywords = true := by decide
          simp [natureFromTexts, h1, h2, h3, h4, e, hr]
        · by_cases h5 : hasAnyKeyword n hybridKeywords = true
          · have e : lowerStr "Hybrid" = "hybrid" := by decide
            have hr : hasAnyKeyword "hybrid" remoteKeywords = false := by decide
            have hh : hasAnyKeyword "hybrid" hybridKeywords = true := by decide
            simp [natureFromTexts, h1, h2, h3, h4, h5, e, hr, hh]
          · by_cases h6 : hasAnyKeyword n onsiteKeywords = true
            · have e : lowerStr "Onsite" = "onsite" := by decide
              have hr : hasAnyKeyword "onsite" remoteKeywords = false := by decide
              have hh : hasAnyKeyword "onsite" hybridKeywords = false := by decide
              have ho : hasAnyKeyword "onsite" onsiteKeywords = true := by decide
              simp [natureFromTexts, h1, h2, h3, h4, h5, h6, e, hr, hh, ho]
            · by_cases h7 : hasAnyKeyword d remoteKeywords = true
              · have e : lowerStr "Remote" = "remote" := by decide
                have hr : hasAnyKeyword "remote" remoteKeywords = true := by decide
                simp [natureFromTexts, h1, h2, h3, h4, h5, h6, h7, e, hr]
              · by_cases h8 : hasAnyKeyword d hybridKeywords = true
                · have e : lowerStr "Hybrid" = "hybrid" := by decide
                  have hr : hasAnyKeyword "hybrid" remoteKeywords = false := by decide
                  have hh : hasAnyKeyword "hybrid" hybridKeywords = true := by decide
                  simp [natureFromTexts, h1, h2, h3, h4, h5, h6, h7, h8, e, hr, hh]
                · by_cases h9 : hasAnyKeyword d onsiteKeywords = true
                  · have e : lowerStr "Onsite" = "onsite" := by decide
                    have hr : hasAnyKeyword "onsite" remoteKeywords = false := by decide
                    have hh : hasAnyKeyword "onsite" hybridKeywords = false := by decide
                    have ho : hasAnyKeyword "onsite" onsiteKeywords = true := by decide
                    simp [natureFromTexts, h1, h2, h3, h4, h5, h6, h7, h8, h9, e, hr, hh, ho]
                  · have e : lowerStr "Not specified" = "not specified" := by decide
                    have hr : hasAnyKeyword "not specified" remoteKeywords = false := by decide
                    have hh : hasAnyKeyword "not specified" hybridKeywords = false := by decide
                    have ho : hasAnyKeyword "not specified" onsiteKeywords = false := by decide
                    simp [natureFromTexts, h1, h2, h3, h4, h5, h6, h7, h8, h9, e, hr, hh, ho]

/-! Section: Lemmas about the rule-based scorer -/

lemma titleBonus_nonneg (req : JobRequest) (job : Job) : 0 ≤ titleBonus req job := by
  unfold titleBonus
  dsimp only
  split_ifs <;> norm_num

lemma skillsBonus_nonneg (req : JobRequest) (job : Job) : 0 ≤ skillsBonus req job := by
  unfold skillsBonus
  rcases req.skills with _ | sk <;> rcases job.description with _ | d <;> simp
  split_ifs <;> try norm_num
  all_goals positivity

lemma locationBonus_nonneg (req : JobRequest) (job : Job) : 0 ≤ locationBonus req job := by
  unfold locationBonus
  rcases req.location with _ | rl <;> rcases job.location with _ | jl <;> simp
  split_ifs <;> norm_num

lemma experienceBonus_nonneg (req : JobRequest) (job : Job) : 0 ≤ experienceBonus req job := by
  unfold experienceBonus
  rcases req.experience with _ | ue <;> rcases job.experience with _ | je <;> simp
  split_ifs <;> try norm_num
  rcases extract_years_from_experience ue with _ | uy <;>
    rcases extract_years_from_experience je with _ | jy <;> simp <;> split_ifs <;> norm_num

lemma bonusSum_nonneg (req : JobRequest) (job : Job) :
    0 ≤ titleBonus req job + skillsBonus req job + locationBonus req job +
      experienceBonus req job := by
  have h1 := titleBonus_nonneg req job
  have h2 := skillsBonus_nonneg req job
  have h3 := locationBonus_nonneg req job
  have h4 := experienceBonus_nonneg req job
  linarith

lemma natureStep_base_lb (req : JobRequest) (job : Job) :
    1/10 ≤ natureStep req job (3/10) := by
  unfold natureStep
  rcases req.jobNature with _ | rn <;> rcases job.jobNature with _ | jn <;> try norm_num
  split_ifs <;> norm_num [min_def]

lemma natureStep_not_mismatch_lb (req : JobRequest) (job : Job)
    (h : natureMismatch req job = false) : 3/10 ≤ natureStep req job (3/10) := by
  rcases hr : req.jobNature with _ | rn <;> rcases hj : job.jobNature with _ | jn <;>
    simp only [natureStep, natureMismatch, hr, hj] <;> try norm_num
  rw [natureMismatch, hr, hj] at h
  dsimp only at h
  by_cases hset : rn ≠ "" ∧ jn ≠ ""
  · rw [if_pos hset]
    by_cases heq : lowerStr rn = lowerStr jn
    · rw [if_pos heq]; norm_num
    · exfalso
      rw [if_pos ⟨hset.1, hset.2, heq⟩] at h
      simp at h
  · rw [if_neg hset]

lemma natureCap_ge {req : JobRequest} {job : Job} {s c : ℚ} (hs : c ≤ s) (hc : c ≤ 3/10) :
    c ≤ natureCap req job s := by
  unfold natureCap
  split_ifs
  · exact le_min hs hc
  · exact hs

lemma rule_score_nonneg (job : Job) (req : JobRequest) :
    0 ≤ calculate_rule_based_score job req := by
  unfold calculate_rule_based_score
  exact le_min (by norm_num) (le_max_left 0 _)

lemma rule_score_le_one (job : Job) (req : JobRequest) :
    calculate_rule_based_score job req ≤ 1 := by
  unfold calculate_rule_based_score
  exact min_le_left 1 _

/-! Section: Permutation and membership lemmas for the list pipeline -/

lemma sortByScoreDesc_perm (l : List Job) : (sortByScoreDesc l).Perm l :=
  List.perm_insertionSort _ l

lemma prioritize_perm (l : List Job) (n : Option String) :
    (prioritize_jobs_by_nature l n).Perm l := by
  unfold prioritize_jobs_by_nature
  rcases n with _ | n
  · exact List.Perm.refl l
  · dsimp only
    split_ifs
    · exact List.Perm.refl l
    · exact List.perm_insertionSort _ l

lemma mem_score_jobs_with_rules {jobs : List Job} {req : JobRequest} {threshold : ℚ}
    {j : Job} (hj : j ∈ jobs) (hth : threshold ≤ calculate_rule_based_score j req) :
    setRuleScore j (calculate_rule_based_score j req) ∈ score_jobs_with_rules jobs req threshold := by
  unfold score_jobs_with_rules
  rw [(prioritize_perm _ _).mem_iff, (sortByScoreDesc_perm _).mem_iff]
  refine List.mem_filterMap.mpr ⟨j, hj, ?_⟩
  dsimp only
  rw [if_pos hth]

lemma mem_score_jobs_with_ai_batch {oracle : Job → ℚ} {jobs : List Job} {threshold : ℚ}
    {j : Job} (hj : j ∈ score_jobs_with_ai_batch oracle jobs threshold) :
    ∃ j0 ∈ jobs, j = recordAIScore j0 (oracle j0) ∧ threshold ≤ oracle j0 / 100 := by
  unfold score_jobs_with_ai_batch at hj
  rw [(sortByScoreDesc_perm _).mem_iff] at hj
  obtain ⟨a, ha, hfa⟩ := List.mem_filterMap.mp hj
  split_ifs at hfa with h
  exact ⟨a, ha, (Option.some_inj.mp hfa).symm, h⟩

lemma natureMatches_recordAIScore (j : Job) (s : ℚ) (n : String) :
    natureMatches (recordAIScore j s) n = natureMatches j n := rfl

lemma natureFlag_eq_zero_iff {j : Job} {n : String} :
    natureFlag j n = 0 ↔ natureMatches j n = true := by
  unfold natureFlag
  split_ifs with h <;> simp [h]

/-! Section: Claim theorems -/

/-- C7. The normalizer applies the three keyword-set checks (remote,
then hybrid, then onsite; case-insensitive substring) first to the title,
then to the existing `workArrangement` field, then to the description,
first match winning: `standardize_job_nature` agrees with the spec-ordered
cascade `standardize_spec`; a posting whose title contains a remote keyword
is normalized to exactly `"Remote"` even when the explicit field says
otherwise; and a posting matching no keyword set anywhere gets
`"Not specified"`. -/
theorem standardize_matches_spec_priority (j : Job) :
    standardize_job_nature j = standardize_spec j ∧
    (hasAnyKeyword (lowerStr j.job_title) remoteKeywords = true →
      (standardize_job_nature j).jobNature = some "Remote") ∧
    (classifyText (lowerStr j.job_title) = none →
      classifyText (lowerStr (j.jobNature.getD "")) = none →
      classifyText (lowerStr (j.description.getD "")) = none →
      (standardize_job_nature j).jobNature = some "Not specified") := by
  refine ⟨?_, ?_, ?_⟩
  · unfold standardize_job_nature standardize_spec
    rw [natureFromTexts_eq_specChain]
  · intro h
    simp [standardize_job_nature, natureFromTexts, h]
  · intro h1 h2 h3
    simp [standardize_job_nature, natureFromTexts_eq_specChain, h1, h2, h3]

/-- Witness for C7: title `"Remote Backend Engineer"` with explicit field
`"Onsite"` normalizes to `"Remote"`. -/
theorem standardize_matches_spec_priority_witness :
    (standardize_job_nature jobTitledRemote).jobNature = some "Remote" :=
  (standardize_matches_spec_priority jobTitledRemote).2.1 (by decide)

/-- C8. The normalizer is idempotent: normalizing an already-normalized
posting leaves its `workArrangement` (and the whole posting) unchanged, for
every posting and hence for each of the four canonical output values. -/
theorem standardize_idempotent (j : Job) :
    standardize_job_nature (standardize_job_nature j) = standardize_job_nature j := by
  simp [standardize_job_nature, natureFromTexts_idem]

/-- C2. The rule-based scorer always returns a value in `[0,1]`, and
whenever both work arrangements are set (truthy) and differ
case-insensitively, the returned score is at most `0.3`, regardless of the
title, skills, location, and experience contributions. -/
theorem rule_score_in_unit_and_mismatch_capped (job : Job) (req : JobRequest) :
    0 ≤ calculate_rule_based_score job req ∧
    calculate_rule_based_score job req ≤ 1 ∧
    (natureMismatch req job = true → calculate_rule_based_score job req ≤ 3/10) := by
  refine ⟨rule_score_nonneg job req, rule_score_le_one job req, fun h => ?_⟩
  unfold calculate_rule_based_score natureCap
  rw [if_pos h]
  exact le_trans (min_le_right 1 _) (max_le (by norm_num) (min_le_right _ _))

/-- Witness for C2: requesting `"remote"` against an `"onsite"` posting
whose title matches the position exactly still scores at most `0.3`. -/
theorem rule_score_in_unit_and_mismatch_capped_witness :
    natureMismatch reqRemote jobOnsite = true ∧
    calculate_rule_based_score jobOnsite reqRemote ≤ 3/10 :=
  ⟨by decide, (rule_score_in_unit_and_mismatch_capped jobOnsite reqRemote).2.2 (by decide)⟩

/-- C10. The rule-based scorer's result is at least `0.1`; when there is
no work-arrangement mismatch it is at least `0.3`, hence at least the
default threshold `MIN_RELEVANCE_SCORE = 0.2`, so the rule-based path keeps
every mismatch-free posting: its annotated copy is in the returned list. -/
theorem rule_score_lower_bounds (job : Job) (req : JobRequest) :
    1/10 ≤ calculate_rule_based_score job req ∧
    (natureMismatch req job = false →
      3/10 ≤ calculate_rule_based_score job req ∧
      MIN_RELEVANCE_SCORE ≤ calculate_rule_based_score job req ∧
      ∀ jobs : List Job, job ∈ jobs →
        setRuleScore job (calculate_rule_based_score job req) ∈
          score_jobs_with_rules jobs req MIN_RELEVANCE_SCORE) := by
  have hb := bonusSum_nonneg req job
  constructor
  · have h1 := natureStep_base_lb req job
    unfold calculate_rule_based_score
    exact le_min (by norm_num) (le_trans (natureCap_ge (by linarith) (by norm_num))
      (le_max_right 0 _))
  · intro h
    have h1 := natureStep_not_mismatch_lb req job h
    have hcalc : 3/10 ≤ calculate_rule_based_score job req := by
      unfold calculate_rule_based_score
      exact le_min (by norm_num) (le_trans (natureCap_ge (by linarith) (by norm_num))
        (le_max_right 0 _))
    have hmin : MIN_RELEVANCE_SCORE ≤ calculate_rule_based_score job req :=
      le_trans (by norm_num [MIN_RELEVANCE_SCORE]) hcalc
    exact ⟨hcalc, hmin, fun jobs hj => mem_score_jobs_with_rules hj hmin⟩

/-- Witness for C10: a posting with no arrangement survives rule-based
filtering at the default threshold. -/
theorem rule_score_lower_bounds_witness :
    natureMismatch reqPlain jobPlain = false ∧
    setRuleScore jobPlain (calculate_rule_based_score jobPlain reqPlain) ∈
      score_jobs_with_rules [jobPlain] reqPlain MIN_RELEVANCE_SCORE :=
  ⟨by decide,
    ((rule_score_lower_bounds jobPlain reqPlain).2 (by decide)).2.2 [jobPlain] (by decide)⟩

/-- C5. In every list handed to `_prioritize_jobs_by_nature` with a
requested arrangement (step 5 of the orchestrator combines matching and
non-matching scored postings and passes them here), every posting whose
`workArrangement` equals the requested one case-insensitively appears
before every posting whose arrangement differs, regardless of scores; and
any two postings with the same match flag appear in descending
relevance-score order. -/
theorem prioritize_matching_first_scores_desc (jobs : List Job) (n : String) (hn : n ≠ "") :
    (prioritize_jobs_by_nature jobs (some n)).Pairwise (fun a b =>
      (natureMatches b n = true → natureMatches a n = true) ∧
      (natureFlag a n = natureFlag b n → jobScore b ≤ jobScore a)) := by
  unfold prioritize_jobs_by_nature
  dsimp only
  split_ifs with h
  · rcases h with h | h
    · exact absurd h hn
    · subst h
      exact List.Pairwise.nil
  · have hs : (List.insertionSort (priorityOrder n) jobs).Pairwise (priorityOrder n) :=
      List.sorted_insertionSort (priorityOrder n) jobs
    refine hs.imp ?_
    intro a b hab
    constructor
    · intro hb
      rcases hab with hlt | ⟨heq, _⟩
      · exfalso
        rw [natureFlag_eq_zero_iff.mpr hb] at hlt
        exact Nat.not_lt_zero _ hlt
      · exact natureFlag_eq_zero_iff.mp (heq.trans (natureFlag_eq_zero_iff.mpr hb))
    · intro heq
      rcases hab with hlt | ⟨_, hsc⟩
      · rw [heq] at hlt
        exact absurd hlt (lt_irrefl _)
      · exact hsc

/-- Witness for C5: a non-matching posting scoring `0.9` still sorts after
a matching posting scoring `0.5`. -/
theorem prioritize_matching_first_scores_desc_witness :
    (prioritize_jobs_by_nature twoScoredJobs (some "remote")).Pairwise (fun a b =>
      (natureMatches b "remote" = true → natureMatches a "remote" = true) ∧
      (natureFlag a "remote" = natureFlag b "remote" → jobScore b ≤ jobScore a)) :=
  prioritize_matching_first_scores_desc twoScoredJobs "remote" (by decide)

/-- C6. For every LLM response whose primary-pattern parsed score
exceeds 30, when both work arrangements are set and differ
case-insensitively, `_score_single_job` records exactly
`min(30, score * 0.3)` and appends the fixed suffix to the explanation. -/
theorem mismatch_safety_net_forces_min (req : JobRequest) (job : Job)
    (content explanation : String) (n : Nat)
    (hp : parse_primary_score content = some n)
    (hm : natureMismatch req job = true) (h30 : 30 < (n : ℚ)) :
    score_single_job_primary req job content explanation =
      some (min 30 ((n : ℚ) * (3/10)),
        explanation ++ " (Score reduced for job nature mismatch)") := by
  unfold score_single_job_primary
  rw [hp, Option.map_some']
  unfold applyNatureMismatchPenalty
  rw [if_pos ⟨hm, h30⟩]

/-- Witness for C6: a response `SCORE: 85` against a remote/onsite mismatch
records `25.5 = min(30, 85 * 0.3)`, which is at most `25.5`. -/
theorem mismatch_safety_net_forces_min_witness :
    score_single_job_primary reqRemote jobOnsite "SCORE: 85" "Good match" =
      some (51/2, "Good match (Score reduced for job nature mismatch)") ∧
    (51 : ℚ)/2 ≤ 51/2 := by
  have h := mismatch_safety_net_forces_min reqRemote jobOnsite "SCORE: 85" "Good match" 85
    (by decide) (by decide) (by norm_num)
  rw [h]
  refine ⟨?_, by norm_num⟩
  norm_num [min_def]
  decide

/-- C9 (amended). When both experience strings are truthy and both
parse to a *nonzero* number of years under the
`\b(\d+)(?:\+)?\s*(?:year|yr)s?\b` pattern (first match taken), the
rule-based scorer adds exactly `+0.10` to the running total when the
posting years are at most the criteria years, and adds nothing otherwise.
(The claim as frozen also asserted this for zero years; the code's
truthiness guard `if user_years and job_years:` skips the bonus when either
value parses to `0` — see the counterexample.) -/
theorem experience_bonus_for_nonzero_years (req : JobRequest) (job : Job) (ue je : String)
    (uy jy : Nat) (hre : req.experience = some ue) (hje : job.experience = some je)
    (hune : ue ≠ "") (hjne : je ≠ "")
    (hxu : extract_years_from_experience ue = some uy)
    (hxj : extract_years_from_experience je = some jy)
    (hu0 : uy ≠ 0) (hj0 : jy ≠ 0) :
    experienceBonus req job = (if jy ≤ uy then (1 : ℚ)/10 else 0) ∧
    calculate_rule_based_score job req =
      min 1 (max 0 (natureCap req job
        (natureStep req job (3/10) + titleBonus req job + skillsBonus req job +
          locationBonus req job + (if jy ≤ uy then (1 : ℚ)/10 else 0)))) := by
  have hb : experienceBonus req job = (if jy ≤ uy then (1 : ℚ)/10 else 0) := by
    unfold experienceBonus
    rw [hre, hje]
    dsimp only
    rw [if_pos ⟨hune, hjne⟩, hxu, hxj]
    dsimp only
    rw [if_pos ⟨hu0, hj0⟩]
  refine ⟨hb, ?_⟩
  unfold calculate_rule_based_score
  rw [hb]

/-- Witness for C9 (amended): criteria `"3 years"` and posting `"2 years"`
earn the `+0.10` bonus. -/
theorem experience_bonus_for_nonzero_years_witness :
    experienceBonus reqThreeYears jobTwoYears = 1/10 := by
  have h := (experience_bonus_for_nonzero_years reqThreeYears jobTwoYears "3 years" "2 years"
    3 2 rfl rfl (by decide) (by decide) (by decide) (by decide) (by decide) (by decide)).1
  rw [h]
  norm_num

/-- Counterexample to C9 as frozen: `"0 years"` parses to `0`, `0 ≤ 5`,
yet the bonus is `0`, not `+0.10`: the whole score is `0.6` (base `0.3`
plus exact-title `0.3`), not `0.7`. -/
theorem zero_years_gets_no_bonus :
    extract_years_from_experience "5 years" = some 5 ∧
    extract_years_from_experience "0 years" = some 0 ∧
    experienceBonus reqFiveYears jobZeroYears = 0 ∧
    calculate_rule_based_score jobZeroYears reqFiveYears = 3/5 := by
  refine ⟨by decide, by decide, by decide, ?_⟩
  with_unfolding_all decide

/-- Counterexample to C3 as frozen: a model response `SCORE: 150` with no
work-arrangement mismatch is recorded as `relevance_score = 1.5 ∉ [0,1]` —
no scoring path clamps the parsed value. -/
theorem llm_overrange_score_escapes_unit :
    parse_primary_score "SCORE: 150" = some 150 ∧
    (recordAIScore jobPlain (applyNatureMismatchPenalty reqPlain jobPlain 150 "ok").1).relevance_score
      = some (3/2) ∧
    ¬ ((3 : ℚ)/2 ≤ 1) := by
  refine ⟨by decide, ?_, by norm_num⟩
  with_unfolding_all decide

/-- C3 (amended). Once assigned, `relevanceScore` lies in `[0,1]`
*provided* the LLM-derived 0-100 scale score lies in `[0,100]`: the batch
recorder divides the (possibly penalty-reduced) score by 100, and the
rule-based scorer is always in `[0,1]`; before scoring, a collected
posting's `relevance_score` is `None`, never a sentinel.  (The claim as
frozen asserted the interval unconditionally; the code never clamps a
parsed LLM score, so a response above 100 escapes the interval — see the
counterexample.) -/
theorem assigned_scores_unit_if_parsed_in_range (req : JobRequest) (job : Job) (s : ℚ)
    (e : String) (h0 : 0 ≤ s) (h100 : s ≤ 100) :
    (∃ r : ℚ, (recordAIScore job (applyNatureMismatchPenalty req job s e).1).relevance_score
        = some r ∧ 0 ≤ r ∧ r ≤ 1) ∧
    0 ≤ calculate_rule_based_score job req ∧
    calculate_rule_based_score job req ≤ 1 ∧
    ∀ (t c al so : String) (ex jn lo sa de : Option String),
      (collectedJob t c ex jn lo sa al de so).relevance_score = none := by
  refine ⟨⟨(applyNatureMismatchPenalty req job s e).1 / 100, rfl, ?_, ?_⟩,
    rule_score_nonneg job req, rule_score_le_one job req, fun _ _ _ _ _ _ _ _ _ => rfl⟩
  · refine div_nonneg ?_ (by norm_num)
    unfold applyNatureMismatchPenalty
    split_ifs with h
    · exact le_min (by norm_num) (mul_nonneg h0 (by norm_num))
    · exact h0
  · rw [div_le_one (by norm_num)]
    unfold applyNatureMismatchPenalty
    split_ifs with h
    · exact le_trans (min_le_left _ _) (by norm_num)
    · exact h100

/-- Witness for C3 (amended): a parsed score of 85 on the no-mismatch path
records a score inside `[0,1]`. -/
theorem assigned_scores_unit_if_parsed_in_range_witness :
    ∃ r : ℚ, (recordAIScore jobPlain
        (applyNatureMismatchPenalty reqPlain jobPlain 85 "e").1).relevance_score
      = some r ∧ 0 ≤ r ∧ r ≤ 1 :=
  (assigned_scores_unit_if_parsed_in_range reqPlain jobPlain 85 "e"
    (by norm_num) (by norm_num)).1

/-- C4 (amended). On the LLM path (`using_ai` true, no whole-batch
failure): if scoring the strictly-matching partition yields at least 5
postings meeting the threshold, the orchestrator returns exactly that
scored list, and every returned posting matches the requested arrangement —
the non-matching partition never contributes.  (The claim as frozen said
this held for "whichever scorer is in effect"; on the rule-based path the
code scores the whole unpartitioned list, so a non-matching posting above
the threshold appears in the result even when five matching postings
qualify — see the counterexample.) -/
theorem ai_path_returns_exactly_matching (oracle : Job → ℚ) (jobs : List Job)
    (req : JobRequest) (threshold : ℚ) (n : String)
    (hne : jobs ≠ []) (hn : req.jobNature = some n) (hn2 : n ≠ "")
    (h5 : 5 ≤ (score_jobs_with_ai_batch oracle
        (strict_filter_by_job_nature jobs req.jobNature) threshold).length) :
    filter_jobs_by_relevance true oracle jobs req threshold =
      score_jobs_with_ai_batch oracle (strict_filter_by_job_nature jobs req.jobNature) threshold ∧
    ∀ j ∈ filter_jobs_by_relevance true oracle jobs req threshold,
      natureMatches j n = true := by
  have heq : filter_jobs_by_relevance true oracle jobs req threshold =
      score_jobs_with_ai_batch oracle (strict_filter_by_job_nature jobs req.jobNature) threshold := by
    unfold filter_jobs_by_relevance
    rw [if_neg hne]
    dsimp only
    rw [if_pos h5]
    rw [if_pos rfl]
  refine ⟨heq, fun j hj => ?_⟩
  rw [heq] at hj
  obtain ⟨j0, hj0, rfl, -⟩ := mem_score_jobs_with_ai_batch hj
  rw [natureMatches_recordAIScore]
  rw [hn] at hj0
  unfold strict_filter_by_job_nature at hj0
  dsimp only at hj0
  rw [if_neg hn2] at hj0
  exact (List.mem_filter.mp hj0).2

/-- Witness for C4 (amended): five matching remote postings, oracle score
90, threshold 0.2. -/
theorem ai_path_returns_exactly_matching_witness :
    filter_jobs_by_relevance true (fun _ => 90) fiveRemoteJobs reqXRemote (1/5) =
      score_jobs_with_ai_batch (fun _ => 90)
        (strict_filter_by_job_nature fiveRemoteJobs reqXRemote.jobNature) (1/5) ∧
    ∀ j ∈ filter_jobs_by_relevance true (fun _ => 90) fiveRemoteJobs reqXRemote (1/5),
      natureMatches j "remote" = true :=
  ai_path_returns_exactly_matching (fun _ => 90) fiveRemoteJobs reqXRemote (1/5) "remote"
    (by decide) rfl (by decide) (by with_unfolding_all decide)

/-- Counterexample to C4 as frozen: with the rule-based scorer in effect
(`using_ai = false`), five matching postings pass the threshold, yet the
annotated non-matching onsite posting (capped score `0.3 ≥ 0.2`) is also in
the orchestrator's result. -/
theorem rule_path_scores_non_matching_despite_five :
    5 ≤ (score_jobs_with_rules (strict_filter_by_job_nature sixJobs reqXRemote.jobNature)
        reqXRemote (1/5)).length ∧
    natureMatches (setRuleScore jobXOnsite (3/10)) "remote" = false ∧
    setRuleScore jobXOnsite (3/10) ∈
      filter_jobs_by_relevance false (fun _ => 0) sixJobs reqXRemote (1/5) := by
  refine ⟨?_, by decide, ?_⟩ <;> with_unfolding_all decide

/-- C1: the simple TF-IDF service keeps a posting whose score `0.05` is
below the supplied threshold `0.2` — the filtering loop compares against
the hard-coded `0.01` instead of the `threshold` parameter, contradicting
the function's own docstring ("Minimum relevance score threshold"); the
source comment "Temporarily lower threshold for testing" marks it as a
leftover hack. -/
theorem simple_filter_ignores_threshold :
    simple_filter_jobs_by_relevance [jobSimple] [1/20] (1/5) =
      [{ jobSimple with relevance_score := some (1/20) }] ∧
    (1 : ℚ)/20 < 1/5 := by
  refine ⟨?_, by norm_num⟩
  with_unfolding_all decide
